import Mathlib

/-!
Shallow embedding of the EV charging-session lifecycle service:
the session routes (start / pause / resume / stop), the ledger write
queue (queueLedgerEvent, processQueue fetch, processEvent,
retryDeadEvents) and the chaincode key derivation (AppendSessionEvent).

Timestamps are modelled as integer milliseconds.  Database tables are
lists of rows; a supabase `update().eq(...)` is a map over the rows
guarded by the translated condition, `select().single()` succeeds
exactly when one row matches, and `insert` appends a row.  The raw
random secret and the server-generated ids, which the code obtains
from crypto / the database, enter the model as explicit parameters,
and the one-way hash is an explicit function parameter.  A store or
queue write that the service would see fail is driven by an explicit
fault flag; all flags false is the fault-free run.
-/

/-- Row of the `charging_sessions` table. -/
structure ChargingSession where
  session_id : String
  ev_id : String
  power_required : Int
  power_consumed : Int
  cost : Int
  status : String
  expires_at : Int
deriving Repr, DecidableEq

/-- Row of the `session_resume_tokens` table. -/
structure TokenRow where
  id : Nat
  session_id : String
  token_hash : String
  expires_at : Int
  revoked_at : Option Int
deriving Repr, DecidableEq

/-- Row of the `ledger_queue` table. -/
structure QueueRow where
  id : Nat
  session_id : String
  ev_id : String
  event_type : String
  payload : String
  status : String
  attempts : Nat
  next_retry_at : Int
  created_at : Int
  tx_id : Option String
  event_key : Option String
  confirmed_at : Option Int
  last_error : Option String
deriving Repr, DecidableEq

/-- The three tables the service touches. -/
structure Store where
  charging_sessions : List ChargingSession
  session_resume_tokens : List TokenRow
  ledger_queue : List QueueRow
deriving Repr, DecidableEq

def TERMINAL_STATES : List String := ["stopped", "expired"]

def RESUMABLE_STATES : List String := ["paused", "disconnected"]

def ACTIVE_STATES : List String := ["active", "charging"]

def isTerminal (status : String) : Bool := TERMINAL_STATES.contains status

def isResumable (status : String) : Bool := RESUMABLE_STATES.contains status

def isActive (status : String) : Bool := ACTIVE_STATES.contains status

/-- `Date.now() >= new Date(expiresAt).getTime()` -/
def isExpired (now expiresAt : Int) : Bool := expiresAt ≤ now

/-- The six status values named by the data model. -/
def sixStatuses : List String :=
  ["active", "charging", "paused", "disconnected", "stopped", "expired"]

def POLL_INTERVAL_MS : Int := 2000

def MAX_ATTEMPTS : Nat := 5

def RETRY_DELAY_MS : Int := 5000

def BATCH_SIZE : Nat := 10

structure QueueResult where
  queued : Bool
  queueId : Option Nat
deriving Repr, DecidableEq

/-- `queueLedgerEvent`: inserts a `pending` row with `attempts = 0` and
`next_retry_at = now`; on insert failure it logs and reports
`queued = false` without raising. -/
def queueLedgerEvent (s : Store) (now : Int) (newId : Nat) (insertFails : Bool)
    (sessionId evId eventType payload : String) : Store × QueueResult :=
  if insertFails then
    (s, { queued := false, queueId := none })
  else
    let row : QueueRow :=
      { id := newId
        session_id := sessionId
        ev_id := evId
        event_type := eventType
        payload := payload
        status := "pending"
        attempts := 0
        next_retry_at := now
        created_at := now
        tx_id := none
        event_key := none
        confirmed_at := none
        last_error := none }
    ({ s with ledger_queue := s.ledger_queue ++ [row] },
     { queued := true, queueId := some newId })

/-- The filter of the drain loop's fetch:
`.in("status", ["pending", "failed"]).lte("next_retry_at", now).lt("attempts", MAX_ATTEMPTS)`. -/
def fetchFilter (now : Int) (r : QueueRow) : Bool :=
  (r.status == "pending" || r.status == "failed") &&
    r.next_retry_at ≤ now && r.attempts < MAX_ATTEMPTS

/-- The batch a single drain selects: filtered rows ordered by
`created_at` ascending, limited to `BATCH_SIZE`. -/
def processQueueSelect (now : Int) (rows : List QueueRow) : List QueueRow :=
  ((rows.filter (fetchFilter now)).mergeSort
      (fun a b => a.created_at ≤ b.created_at)).take BATCH_SIZE

/-- `processEvent`: marks the row `processing` with `attempts + 1`, then
submits; on success marks `confirmed` recording `tx_id` and `event_key`
(broadcasting a confirmation when a txId is known); on failure sets
`next_retry_at = now + RETRY_DELAY_MS * 2 ^ attempts` (the row's
pre-increment attempts count), records the error, and marks `failed`,
or `dead` when `attempts + 1 >= MAX_ATTEMPTS`, broadcasting a failure
notification on `dead`.  Returns the final row together with the list
of broadcast event names. -/
def processEvent (now : Int) (txId : Option String)
    (submitResult : Except String String) (row : QueueRow) :
    QueueRow × List String :=
  let marked := { row with status := "processing", attempts := row.attempts + 1 }
  match submitResult with
  | Except.ok eventKey =>
      ({ marked with
          status := "confirmed"
          tx_id := txId
          event_key := some eventKey
          confirmed_at := some now
          last_error := none },
       match txId with
       | some _ => [row.event_type ++ "Confirmed"]
       | none => [])
  | Except.error errorMsg =>
      let nextRetry := now + RETRY_DELAY_MS * 2 ^ row.attempts
      let newStatus := if row.attempts + 1 ≥ MAX_ATTEMPTS then "dead" else "failed"
      ({ marked with
          status := newStatus
          last_error := some errorMsg
          next_retry_at := nextRetry },
       if newStatus = "dead" then [row.event_type ++ "Failed"] else [])

/-- The condition of the `retryDeadEvents` update:
`.eq("status", "dead")` plus the optional `.eq("session_id", sessionId)`. -/
def retryDeadMatches (sessionId : Option String) (r : QueueRow) : Bool :=
  r.status == "dead" &&
    (match sessionId with
     | some sid => r.session_id == sid
     | none => true)

/-- `retryDeadEvents`: resets all (or one session's) `dead` rows to
`pending` with `attempts = 0`, `next_retry_at = now`, `last_error`
cleared; returns the new table and the reset count. -/
def retryDeadEvents (now : Int) (sessionId : Option String)
    (rows : List QueueRow) : List QueueRow × Nat :=
  (rows.map (fun r =>
      if retryDeadMatches sessionId r then
        { r with status := "pending", attempts := 0,
                 next_retry_at := now, last_error := none }
      else r),
   (rows.filter (retryDeadMatches sessionId)).length)

/-- The ledger key `AppendSessionEvent` writes under:
`sess~sessionId~eventType~txId`, where `txId = ctx.stub.getTxID()` is
the id of the submitting transaction. -/
def appendSessionEventKey (sessionId eventType txId : String) : String :=
  "sess~" ++ sessionId ++ "~" ++ eventType ++ "~" ++ txId

/-- The key one ledger-write attempt for a queue row produces, given
the transaction id fabric assigned to that attempt: `processEvent`
submits the row's `session_id` and `event_type` to
`AppendSessionEvent`, which derives the key from them and its own
per-transaction id. -/
def attemptKey (row : QueueRow) (txId : String) : String :=
  appendSessionEventKey row.session_id row.event_type txId

/-- Store-write fault injection: a `true` field makes the corresponding
supabase write of one handler invocation report an error.  All fields
default to `false` (the fault-free run). -/
structure Faults where
  sessionInsert : Bool := false
  tokenInsert : Bool := false
  tokenRevoke : Bool := false
  tokenRevokeAll : Bool := false
  sessionUpdate : Bool := false
  expireUpdate : Bool := false
  queueInsert : Bool := false
deriving Repr, DecidableEq

def noFaults : Faults := {}

/-- Per-invocation environment: the clock, the one-way token hash, and
the fresh values (secret, server-generated ids) the code obtains from
crypto / the database during the call. -/
structure Env where
  now : Int
  hashToken : String → String
  newSecret : String
  newSessionId : String
  newTokenId : Nat
  newQueueId : Nat
  faults : Faults

structure StartRequest where
  evId : Option String
  powerRequired : Option Int
  hours : Option Int
deriving Repr, DecidableEq

structure SessionRequest where
  evId : Option String
  sessionId : Option String
deriving Repr, DecidableEq

structure ResumeRequest where
  evId : Option String
  sessionId : Option String
  resumeToken : Option String
deriving Repr, DecidableEq

/-- The JSON body a route answers with (the fields the claims need). -/
structure ApiResponse where
  status_code : Nat
  ok : Bool
  error : Option String
  session : Option ChargingSession
  resumeToken : Option String
  queueId : Option Nat
deriving Repr, DecidableEq

/-- Result of one handler invocation: the response, the store after the
call, and the event names passed to the SSE broadcast. -/
structure HandlerResult where
  response : ApiResponse
  store : Store
  broadcasts : List String
deriving Repr, DecidableEq

def errResponse (code : Nat) (msg : String) : ApiResponse :=
  { status_code := code, ok := false, error := some msg,
    session := none, resumeToken := none, queueId := none }

/-- `.select(...).eq("session_id", sid).eq("ev_id", ev).single()` on
`charging_sessions`: exactly one matching row or failure. -/
def selectSingleSession (s : Store) (sid ev : String) : Option ChargingSession :=
  match s.charging_sessions.filter
      (fun r => r.session_id == sid && r.ev_id == ev) with
  | [r] => some r
  | _ => none

/-- `.select(...).eq("session_id", sid).eq("token_hash", hash).is("revoked_at", null).single()`
on `session_resume_tokens`. -/
def selectSingleToken (s : Store) (sid hash : String) : Option TokenRow :=
  match s.session_resume_tokens.filter
      (fun t => t.session_id == sid && t.token_hash == hash
        && t.revoked_at == none) with
  | [t] => some t
  | _ => none

/-- Apply `f` to every `charging_sessions` row matching `cond`. -/
def updateSessions (s : Store) (cond : ChargingSession → Bool)
    (f : ChargingSession → ChargingSession) : Store :=
  { s with charging_sessions :=
      s.charging_sessions.map (fun r => if cond r then f r else r) }

/-- Apply `f` to every `session_resume_tokens` row matching `cond`. -/
def updateTokens (s : Store) (cond : TokenRow → Bool)
    (f : TokenRow → TokenRow) : Store :=
  { s with session_resume_tokens :=
      s.session_resume_tokens.map (fun t => if cond t then f t else t) }

/-- The condition of the pause / resume / stop status update:
`.eq("session_id", sid).eq("ev_id", ev)`. -/
def sessionUpdateMatches (sid ev : String) (r : ChargingSession) : Bool :=
  r.session_id == sid && r.ev_id == ev

/-- The condition of the lazy-expiry status update:
`.eq("session_id", sid)` only. -/
def expireUpdateMatches (sid : String) (r : ChargingSession) : Bool :=
  r.session_id == sid

/-- `update({ status: "disconnected" }).eq("session_id", sid).eq("ev_id", ev)`
performed by the pause route. -/
def pauseSessionUpdate (sid ev : String) (s : Store) : Store :=
  updateSessions s (sessionUpdateMatches sid ev)
    (fun r => { r with status := "disconnected" })

/-- `update({ status: "active" }).eq("session_id", sid).eq("ev_id", ev)`
performed by the resume route. -/
def resumeSessionUpdate (sid ev : String) (s : Store) : Store :=
  updateSessions s (sessionUpdateMatches sid ev)
    (fun r => { r with status := "active" })

/-- `update({ status: "stopped" }).eq("session_id", sid).eq("ev_id", ev)`
performed by the stop route. -/
def stopSessionUpdate (sid ev : String) (s : Store) : Store :=
  updateSessions s (sessionUpdateMatches sid ev)
    (fun r => { r with status := "stopped" })

/-- `update({ status: "expired" }).eq("session_id", sid)` performed on
lazy expiry detection (its error is not checked by the code; a failed
write leaves the store unchanged). -/
def expireSessionUpdate (faultExpire : Bool) (sid : String) (s : Store) : Store :=
  if faultExpire then s
  else updateSessions s (expireUpdateMatches sid)
    (fun r => { r with status := "expired" })

/-- POST /start. -/
def startHandler (env : Env) (req : StartRequest) (s : Store) : HandlerResult :=
  match req.evId with
  | none => ⟨errResponse 400 "evId is required", s, []⟩
  | some evId =>
    if evId = "" then ⟨errResponse 400 "evId is required", s, []⟩
    else match req.powerRequired with
    | none => ⟨errResponse 400 "powerRequired must be a number", s, []⟩
    | some powerRequired =>
      let hours := req.hours.getD 6
      let expiresAt := env.now + hours * 60 * 60 * 1000
      if env.faults.sessionInsert then
        ⟨errResponse 500 "Failed to create session", s, []⟩
      else
        let session : ChargingSession :=
          { session_id := env.newSessionId
            ev_id := evId
            power_required := powerRequired
            power_consumed := 0
            cost := 0
            status := "active"
            expires_at := expiresAt }
        let s1 : Store :=
          { s with charging_sessions := s.charging_sessions ++ [session] }
        let tokenHash := env.hashToken env.newSecret
        if env.faults.tokenInsert then
          ⟨errResponse 500 "token insert failed", s1, []⟩
        else
          let tokenRow : TokenRow :=
            { id := env.newTokenId
              session_id := env.newSessionId
              token_hash := tokenHash
              expires_at := expiresAt
              revoked_at := none }
          let s2 : Store :=
            { s1 with session_resume_tokens :=
                s1.session_resume_tokens ++ [tokenRow] }
          let (s3, q) := queueLedgerEvent s2 env.now env.newQueueId
            env.faults.queueInsert env.newSessionId evId "SessionStarted"
            "start payload"
          ⟨{ status_code := 200, ok := true, error := none,
             session := some session, resumeToken := some env.newSecret,
             queueId := q.queueId },
           s3, ["SessionStarted"]⟩

/-- POST /pause. -/
def pauseHandler (env : Env) (req : SessionRequest) (s : Store) : HandlerResult :=
  match req.evId with
  | none => ⟨errResponse 400 "evId is required", s, []⟩
  | some evId =>
    if evId = "" then ⟨errResponse 400 "evId is required", s, []⟩
    else match req.sessionId with
    | none => ⟨errResponse 400 "sessionId is required", s, []⟩
    | some sessionId =>
      if sessionId = "" then ⟨errResponse 400 "sessionId is required", s, []⟩
      else match selectSingleSession s sessionId evId with
      | none => ⟨errResponse 404 "Session not found", s, []⟩
      | some session =>
        if isTerminal session.status then
          ⟨errResponse 400 ("Session already " ++ session.status), s, []⟩
        else if !isActive session.status then
          ⟨errResponse 400
              ("Session is " ++ session.status ++ " - already paused/disconnected"),
           s, []⟩
        else if isExpired env.now session.expires_at then
          ⟨errResponse 410 "Session expired",
           expireSessionUpdate env.faults.expireUpdate sessionId s, []⟩
        else if env.faults.sessionUpdate then
          ⟨errResponse 500 "Failed to pause session", s, []⟩
        else
          let s1 := pauseSessionUpdate sessionId evId s
          match selectSingleSession s1 sessionId evId with
          | none => ⟨errResponse 500 "Failed to pause session", s1, []⟩
          | some updated =>
            let (s2, q) := queueLedgerEvent s1 env.now env.newQueueId
              env.faults.queueInsert sessionId evId "SessionPaused"
              "pause payload"
            ⟨{ status_code := 200, ok := true, error := none,
               session := some updated, resumeToken := none,
               queueId := q.queueId },
             s2, ["SessionPaused"]⟩

/-- POST /resume. -/
def resumeHandler (env : Env) (req : ResumeRequest) (s : Store) : HandlerResult :=
  match req.evId with
  | none => ⟨errResponse 400 "evId is required", s, []⟩
  | some evId =>
    if evId = "" then ⟨errResponse 400 "evId is required", s, []⟩
    else match req.sessionId with
    | none => ⟨errResponse 400 "sessionId is required", s, []⟩
    | some sessionId =>
      if sessionId = "" then ⟨errResponse 400 "sessionId is required", s, []⟩
      else match req.resumeToken with
      | none => ⟨errResponse 400 "resumeToken is required", s, []⟩
      | some resumeToken =>
        if resumeToken = "" then
          ⟨errResponse 400 "resumeToken is required", s, []⟩
        else match selectSingleSession s sessionId evId with
        | none => ⟨errResponse 404 "Session not found", s, []⟩
        | some session =>
          if isTerminal session.status then
            ⟨errResponse 400
                ("Session is " ++ session.status
                  ++ " - cannot resume a terminated session"),
             s, []⟩
          else if isActive session.status then
            ⟨errResponse 400
                ("Session is already " ++ session.status
                  ++ " - no need to resume"),
             s, []⟩
          else if !isResumable session.status then
            ⟨errResponse 400
                ("Session status " ++ session.status
                  ++ " does not allow resumption"),
             s, []⟩
          else if isExpired env.now session.expires_at then
            let s1 := expireSessionUpdate env.faults.expireUpdate sessionId s
            let (s2, _q) := queueLedgerEvent s1 env.now env.newQueueId
              env.faults.queueInsert sessionId evId "SessionExpired"
              "expired payload"
            ⟨errResponse 410 "Session expired", s2, ["SessionExpired"]⟩
          else
            let tokenHash := env.hashToken resumeToken
            match selectSingleToken s sessionId tokenHash with
            | none => ⟨errResponse 401 "Invalid or revoked token", s, []⟩
            | some tokenRow =>
              if isExpired env.now tokenRow.expires_at then
                ⟨errResponse 401 "Token expired", s, []⟩
              else
                let newHash := env.hashToken env.newSecret
                let s1 :=
                  if env.faults.tokenRevoke then s
                  else updateTokens s (fun t => t.id == tokenRow.id)
                    (fun t => { t with revoked_at := some env.now })
                if env.faults.tokenInsert then
                  ⟨errResponse 500 "token insert failed", s1, []⟩
                else
                  let newRow : TokenRow :=
                    { id := env.newTokenId
                      session_id := sessionId
                      token_hash := newHash
                      expires_at := session.expires_at
                      revoked_at := none }
                  let s2 : Store :=
                    { s1 with session_resume_tokens :=
                        s1.session_resume_tokens ++ [newRow] }
                  if env.faults.sessionUpdate then
                    ⟨errResponse 500 "Failed to resume session", s2, []⟩
                  else
                    let s3 := resumeSessionUpdate sessionId evId s2
                    match selectSingleSession s3 sessionId evId with
                    | none => ⟨errResponse 500 "Failed to resume session", s3, []⟩
                    | some updated =>
                      let (s4, q) := queueLedgerEvent s3 env.now env.newQueueId
                        env.faults.queueInsert sessionId evId "SessionResumed"
                        "resume payload"
                      ⟨{ status_code := 200, ok := true, error := none,
                         session := some updated,
                         resumeToken := some env.newSecret,
                         queueId := q.queueId },
                       s4, ["SessionResumed"]⟩

/-- POST /stop. -/
def stopHandler (env : Env) (req : SessionRequest) (s : Store) : HandlerResult :=
  match req.evId with
  | none => ⟨errResponse 400 "evId is required", s, []⟩
  | some evId =>
    if evId = "" then ⟨errResponse 400 "evId is required", s, []⟩
    else match req.sessionId with
    | none => ⟨errResponse 400 "sessionId is required", s, []⟩
    | some sessionId =>
      if sessionId = "" then ⟨errResponse 400 "sessionId is required", s, []⟩
      else match selectSingleSession s sessionId evId with
      | none => ⟨errResponse 404 "Session not found", s, []⟩
      | some session =>
        if isTerminal session.status then
          ⟨errResponse 400 ("Session already " ++ session.status), s, []⟩
        else if isExpired env.now session.expires_at then
          let s1 := expireSessionUpdate env.faults.expireUpdate sessionId s
          let (s2, _q) := queueLedgerEvent s1 env.now env.newQueueId
            env.faults.queueInsert sessionId evId "SessionExpired"
            "expired payload"
          ⟨errResponse 410 "Session expired", s2, ["SessionExpired"]⟩
        else if env.faults.sessionUpdate then
          ⟨errResponse 500 "Failed to stop session", s, []⟩
        else
          let s1 := stopSessionUpdate sessionId evId s
          match selectSingleSession s1 sessionId evId with
          | none => ⟨errResponse 500 "Failed to stop session", s1, []⟩
          | some updated =>
            let s2 :=
              if env.faults.tokenRevokeAll then s1
              else updateTokens s1
                (fun t => t.session_id == sessionId && t.revoked_at == none)
                (fun t => { t with revoked_at := some env.now })
            let (s3, q) := queueLedgerEvent s2 env.now env.newQueueId
              env.faults.queueInsert sessionId evId "SessionStopped"
              "stop payload"
            ⟨{ status_code := 200, ok := true, error := none,
               session := some updated, resumeToken := none,
               queueId := q.queueId },
             s3, ["SessionStopped"]⟩

/-- `session_id` is the primary key of `charging_sessions`. -/
def sessionIdsUnique (s : Store) : Prop :=
  (s.charging_sessions.map ChargingSession.session_id).Nodup

/-- Every session status is one of the six defined values. -/
def allSixStatuses (s : Store) : Prop :=
  ∀ r ∈ s.charging_sessions, r.status ∈ sixStatuses

/-- A concrete stand-in for the one-way hash in closed instances. -/
def cHash : String → String := fun x => x ++ "-h"

def cFixedEnv : Env :=
  { now := 1000
    hashToken := cHash
    newSecret := "secret2"
    newSessionId := "S9"
    newTokenId := 9
    newQueueId := 9
    faults := noFaults }

def cStopped : ChargingSession :=
  { session_id := "S1", ev_id := "EV1", power_required := 10,
    power_consumed := 0, cost := 0, status := "stopped", expires_at := 5000 }

def cStoreTerminal : Store :=
  { charging_sessions := [cStopped]
    session_resume_tokens := []
    ledger_queue := [] }

/-- The spec's success condition for resume: the session exists for
`(sessionId, evId)`, its status is paused or disconnected, `now` is
strictly before the session's `expires_at`, and the supplied secret's
hash matches the single unrevoked token row for that session whose own
`expires_at` has not passed. -/
def resumeSucceedsCond (env : Env) (e sid tok : String) (s : Store) : Bool :=
  match selectSingleSession s sid e with
  | none => false
  | some r =>
    isResumable r.status && !isExpired env.now r.expires_at &&
      (match selectSingleToken s sid (env.hashToken tok) with
       | none => false
       | some t => !isExpired env.now t.expires_at)

def cFaultInsertEnv : Env :=
  { now := 1000
    hashToken := cHash
    newSecret := "secret2"
    newSessionId := "S9"
    newTokenId := 9
    newQueueId := 9
    faults := { tokenInsert := true } }

def cActiveExpired : ChargingSession :=
  { session_id := "S1", ev_id := "EV1", power_required := 10,
    power_consumed := 0, cost := 0, status := "active", expires_at := 500 }

def cStoreActiveExpired : Store :=
  { charging_sessions := [cActiveExpired]
    session_resume_tokens := []
    ledger_queue := [] }

def cQueueRow : QueueRow :=
  { id := 1, session_id := "S1", ev_id := "EV1",
    event_type := "SessionStarted", payload := "p", status := "pending",
    attempts := 0, next_retry_at := 0, created_at := 0, tx_id := none,
    event_key := none, confirmed_at := none, last_error := none }

def cQueueRowA1 : QueueRow := { cQueueRow with attempts := 1 }

def cStoreEmpty : Store :=
  { charging_sessions := [], session_resume_tokens := [], ledger_queue := [] }

def cFaultQueueEnv : Env :=
  { now := 1000
    hashToken := cHash
    newSecret := "secret2"
    newSessionId := "S9"
    newTokenId := 9
    newQueueId := 9
    faults := { queueInsert := true } }

def cPaused : ChargingSession :=
  { session_id := "S1", ev_id := "EV1", power_required := 10,
    power_consumed := 0, cost := 0, status := "paused", expires_at := 5000 }

def cLiveToken : TokenRow :=
  { id := 1, session_id := "S1", token_hash := cHash "tok1",
    expires_at := 5000, revoked_at := none }

def cStoreResumable : Store :=
  { charging_sessions := [cPaused]
    session_resume_tokens := [cLiveToken]
    ledger_queue := [] }

def cQueueRowProcessing : QueueRow := { cQueueRow with status := "processing" }

@[simp] theorem errResponse_ok (c : Nat) (m : String) :
    (errResponse c m).ok = false := rfl
@[simp] theorem errResponse_status_code (c : Nat) (m : String) :
    (errResponse c m).status_code = c := rfl
@[simp] theorem errResponse_error (c : Nat) (m : String) :
    (errResponse c m).error = some m := rfl

theorem session_eq_of_unique {s : Store} (hu : sessionIdsUnique s)
    {a b : ChargingSession} (ha : a ∈ s.charging_sessions)
    (hb : b ∈ s.charging_sessions) (heq : a.session_id = b.session_id) :
    a = b :=
  List.inj_on_of_nodup_map hu ha hb heq

theorem selectSingleSession_eq_some {s : Store} {sid ev : String}
    {r : ChargingSession} :
    selectSingleSession s sid ev = some r ↔
      s.charging_sessions.filter
        (fun x => x.session_id == sid && x.ev_id == ev) = [r] := by
  unfold selectSingleSession
  cases h : s.charging_sessions.filter
      (fun x => x.session_id == sid && x.ev_id == ev) with
  | nil => simp
  | cons a t =>
    cases t with
    | nil => simp
    | cons b t2 => simp

theorem mem_update_of_cond_false {α : Type} {l : List α} {cond : α → Bool}
    {f : α → α} {r : α} (h : r ∈ l) (hc : cond r = false) :
    r ∈ l.map (fun x => if cond x then f x else x) := by
  have h2 := List.mem_map_of_mem (fun x => if cond x then f x else x) h
  simpa [hc] using h2

theorem mem_of_cmdUpdate_nonterminal {s : Store} {sid ev st : String}
    {r : ChargingSession}
    (hsel : selectSingleSession s sid ev = some r)
    (hr : isTerminal r.status = false)
    {t : ChargingSession} (ht : t ∈ s.charging_sessions)
    (hterm : isTerminal t.status = true) :
    t ∈ (updateSessions s (sessionUpdateMatches sid ev)
          (fun x => { x with status := st })).charging_sessions := by
  apply mem_update_of_cond_false ht
  cases hc : sessionUpdateMatches sid ev t with
  | false => rfl
  | true =>
    exfalso
    have hmem : t ∈ s.charging_sessions.filter
        (fun x => x.session_id == sid && x.ev_id == ev) :=
      List.mem_filter.mpr ⟨ht, hc⟩
    rw [selectSingleSession_eq_some.mp hsel] at hmem
    have := List.mem_singleton.mp hmem
    subst this
    rw [hr] at hterm
    exact Bool.false_ne_true hterm

theorem selectSingleSession_props {s : Store} {sid ev : String}
    {r : ChargingSession} (h : selectSingleSession s sid ev = some r) :
    r ∈ s.charging_sessions ∧ r.session_id = sid ∧ r.ev_id = ev := by
  have hf := selectSingleSession_eq_some.mp h
  have hmem : r ∈ s.charging_sessions.filter
      (fun x => x.session_id == sid && x.ev_id == ev) := by
    rw [hf]; exact List.mem_singleton.mpr rfl
  have h2 := List.mem_filter.mp hmem
  refine ⟨h2.1, ?_, ?_⟩
  · have := h2.2
    simp only [Bool.and_eq_true, beq_iff_eq] at this
    exact this.1
  · have := h2.2
    simp only [Bool.and_eq_true, beq_iff_eq] at this
    exact this.2

theorem mem_of_expireUpdate_nonterminal {s : Store} {sid ev : String}
    {r : ChargingSession} (hu : sessionIdsUnique s)
    (hsel : selectSingleSession s sid ev = some r)
    (hr : isTerminal r.status = false)
    {t : ChargingSession} (ht : t ∈ s.charging_sessions)
    (hterm : isTerminal t.status = true) (b : Bool) :
    t ∈ (expireSessionUpdate b sid s).charging_sessions := by
  unfold expireSessionUpdate
  cases b with
  | true => simpa using ht
  | false =>
    simp only [Bool.false_eq_true, if_false]
    apply mem_update_of_cond_false ht
    cases hc : expireUpdateMatches sid t with
    | false => rfl
    | true =>
      exfalso
      obtain ⟨hrmem, hrsid, _⟩ := selectSingleSession_props hsel
      have htsid : t.session_id = sid := by
        simpa [expireUpdateMatches] using hc
      have : t = r := session_eq_of_unique hu ht hrmem (htsid.trans hrsid.symm)
      subst this
      rw [hr] at hterm
      exact Bool.false_ne_true hterm

theorem pauseHandler_store_cases (env : Env) (req : SessionRequest) (s : Store) :
    (pauseHandler env req s).store.charging_sessions = s.charging_sessions ∨
    ∃ sid ev r, selectSingleSession s sid ev = some r ∧
      isTerminal r.status = false ∧
      ((pauseHandler env req s).store.charging_sessions =
         (expireSessionUpdate env.faults.expireUpdate sid s).charging_sessions ∨
       (pauseHandler env req s).store.charging_sessions =
         (pauseSessionUpdate sid ev s).charging_sessions) := by
  obtain ⟨evId?, sid?⟩ := req
  cases evId? with
  | none => left; rfl
  | some evId =>
    by_cases hev : evId = ""
    · left; simp [pauseHandler, hev]
    · cases sid? with
      | none => left; simp [pauseHandler, hev]
      | some sessionId =>
        by_cases hsid : sessionId = ""
        · left; simp [pauseHandler, hev, hsid]
        · cases hsel : selectSingleSession s sessionId evId with
          | none => left; simp [pauseHandler, hev, hsid, hsel]
          | some session =>
            by_cases hterm : isTerminal session.status = true
            · left; simp [pauseHandler, hev, hsid, hsel, hterm]
            · rw [Bool.not_eq_true] at hterm
              by_cases hact : isActive session.status = true
              · by_cases hexp : isExpired env.now session.expires_at = true
                · right
                  exact ⟨sessionId, evId, session, hsel, hterm, Or.inl (by
                    simp [pauseHandler, hev, hsid, hsel, hterm, hact, hexp])⟩
                · rw [Bool.not_eq_true] at hexp
                  by_cases hfu : env.faults.sessionUpdate = true
                  · left
                    simp [pauseHandler, hev, hsid, hsel, hterm, hact, hexp, hfu]
                  · rw [Bool.not_eq_true] at hfu
                    right
                    refine ⟨sessionId, evId, session, hsel, hterm, Or.inr ?_⟩
                    cases hsel2 : selectSingleSession
                        (pauseSessionUpdate sessionId evId s) sessionId evId with
                    | none =>
                      simp [pauseHandler, hev, hsid, hsel, hterm, hact, hexp,
                        hfu, hsel2]
                    | some updated =>
                      simp [pauseHandler, hev, hsid, hsel, hterm, hact, hexp,
                        hfu, hsel2, queueLedgerEvent]
                      by_cases hq : env.faults.queueInsert = true <;> simp [hq]
              · rw [Bool.not_eq_true] at hact
                left
                simp [pauseHandler, hev, hsid, hsel, hterm, hact]

theorem stopHandler_store_cases (env : Env) (req : SessionRequest) (s : Store) :
    (stopHandler env req s).store.charging_sessions = s.charging_sessions ∨
    ∃ sid ev r, selectSingleSession s sid ev = some r ∧
      isTerminal r.status = false ∧
      ((stopHandler env req s).store.charging_sessions =
         (expireSessionUpdate env.faults.expireUpdate sid s).charging_sessions ∨
       (stopHandler env req s).store.charging_sessions =
         (stopSessionUpdate sid ev s).charging_sessions) := by
  obtain ⟨evId?, sid?⟩ := req
  cases evId? with
  | none => left; rfl
  | some evId =>
    by_cases hev : evId = ""
    · left; simp [stopHandler, hev]
    · cases sid? with
      | none => left; simp [stopHandler, hev]
      | some sessionId =>
        by_cases hsid : sessionId = ""
        · left; simp [stopHandler, hev, hsid]
        · cases hsel : selectSingleSession s sessionId evId with
          | none => left; simp [stopHandler, hev, hsid, hsel]
          | some session =>
            by_cases hterm : isTerminal session.status = true
            · left; simp [stopHandler, hev, hsid, hsel, hterm]
            · rw [Bool.not_eq_true] at hterm
              by_cases hexp : isExpired env.now session.expires_at = true
              · right
                refine ⟨sessionId, evId, session, hsel, hterm, Or.inl ?_⟩
                simp only [stopHandler, hev, hsid, hsel, hterm, hexp]
                simp [queueLedgerEvent]
                by_cases hq : env.faults.queueInsert = true <;> simp [hq]
              · rw [Bool.not_eq_true] at hexp
                by_cases hfu : env.faults.sessionUpdate = true
                · left
                  simp [stopHandler, hev, hsid, hsel, hterm, hexp, hfu]
                · rw [Bool.not_eq_true] at hfu
                  right
                  refine ⟨sessionId, evId, session, hsel, hterm, Or.inr ?_⟩
                  cases hsel2 : selectSingleSession
                      (stopSessionUpdate sessionId evId s) sessionId evId with
                  | none =>
                    simp [stopHandler, hev, hsid, hsel, hterm, hexp, hfu, hsel2]
                  | some updated =>
                    simp only [stopHandler, hev, hsid, hsel, hterm, hexp, hfu,
                      hsel2]
                    simp [queueLedgerEvent, updateTokens]
                    by_cases hr : env.faults.tokenRevokeAll = true <;>
                      by_cases hq : env.faults.queueInsert = true <;>
                        simp [hr, hq]

theorem resumeHandler_store_cases (env : Env) (req : ResumeRequest) (s : Store) :
    (resumeHandler env req s).store.charging_sessions = s.charging_sessions ∨
    ∃ sid ev r, selectSingleSession s sid ev = some r ∧
      isTerminal r.status = false ∧
      ((resumeHandler env req s).store.charging_sessions =
         (expireSessionUpdate env.faults.expireUpdate sid s).charging_sessions ∨
       (resumeHandler env req s).store.charging_sessions =
         (resumeSessionUpdate sid ev s).charging_sessions) := by
  obtain ⟨evId?, sid?, tok?⟩ := req
  cases evId? with
  | none => left; rfl
  | some evId =>
    by_cases hev : evId = ""
    · left; simp [resumeHandler, hev]
    · cases sid? with
      | none => left; simp [resumeHandler, hev]
      | some sessionId =>
        by_cases hsid : sessionId = ""
        · left; simp [resumeHandler, hev, hsid]
        · cases tok? with
          | none => left; simp [resumeHandler, hev, hsid]
          | some tok =>
            by_cases htok : tok = ""
            · left; simp [resumeHandler, hev, hsid, htok]
            · cases hsel : selectSingleSession s sessionId evId with
              | none => left; simp [resumeHandler, hev, hsid, htok, hsel]
              | some session =>
                by_cases hterm : isTerminal session.status = true
                · left; simp [resumeHandler, hev, hsid, htok, hsel, hterm]
                · rw [Bool.not_eq_true] at hterm
                  by_cases hact : isActive session.status = true
                  · left
                    simp [resumeHandler, hev, hsid, htok, hsel, hterm, hact]
                  · rw [Bool.not_eq_true] at hact
                    by_cases hres : isResumable session.status = true
                    · by_cases hexp : isExpired env.now session.expires_at = true
                      · right
                        refine ⟨sessionId, evId, session, hsel, hterm, Or.inl ?_⟩
                        simp only [resumeHandler, hev, hsid, htok, hsel, hterm,
                          hact, hres, hexp]
                        simp [queueLedgerEvent]
                        by_cases hq : env.faults.queueInsert = true <;> simp [hq]
                      · rw [Bool.not_eq_true] at hexp
                        cases hseltok : selectSingleToken s sessionId
                            (env.hashToken tok) with
                        | none =>
                          left
                          simp [resumeHandler, hev, hsid, htok, hsel, hterm,
                            hact, hres, hexp, hseltok]
                        | some tokenRow =>
                          by_cases htexp :
                              isExpired env.now tokenRow.expires_at = true
                          · left
                            simp [resumeHandler, hev, hsid, htok, hsel, hterm,
                              hact, hres, hexp, hseltok, htexp]
                          · rw [Bool.not_eq_true] at htexp
                            by_cases hfi : env.faults.tokenInsert = true
                            · left
                              simp [resumeHandler, hev, hsid, htok, hsel, hterm,
                                hact, hres, hexp, hseltok, htexp, hfi,
                                updateTokens]
                              by_cases hfr : env.faults.tokenRevoke = true <;>
                                simp [hfr]
                            · rw [Bool.not_eq_true] at hfi
                              by_cases hfu : env.faults.sessionUpdate = true
                              · left
                                simp [resumeHandler, hev, hsid, htok, hsel,
                                  hterm, hact, hres, hexp, hseltok, htexp, hfi,
                                  hfu, updateTokens]
                                by_cases hfr : env.faults.tokenRevoke = true <;>
                                  simp [hfr]
                              · rw [Bool.not_eq_true] at hfu
                                right
                                refine ⟨sessionId, evId, session, hsel, hterm,
                                  Or.inr ?_⟩
                                simp only [resumeHandler, hev, hsid, htok, hsel,
                                  hterm, hact, hres, hexp, hseltok, htexp, hfi,
                                  hfu]
                                by_cases hfr : env.faults.tokenRevoke = true <;>
                                  simp only [hfr, Bool.false_eq_true,
                                    Bool.true_eq_false, if_true, if_false,
                                    Bool.not_true, Bool.not_false,
                                    reduceIte] <;>
                                  split <;>
                                  simp [resumeSessionUpdate, updateSessions,
                                    updateTokens, queueLedgerEvent] <;>
                                  by_cases hq : env.faults.queueInsert = true <;>
                                    simp [hq]
                    · rw [Bool.not_eq_true] at hres
                      left
                      simp [resumeHandler, hev, hsid, htok, hsel, hterm, hact,
                        hres]

theorem startHandler_store_cases (env : Env) (req : StartRequest) (s : Store) :
    (startHandler env req s).store.charging_sessions = s.charging_sessions ∨
    ∃ p : Int, (startHandler env req s).store.charging_sessions =
      s.charging_sessions ++
        [{ session_id := env.newSessionId
           ev_id := (req.evId).getD ""
           power_required := p
           power_consumed := 0
           cost := 0
           status := "active"
           expires_at := env.now + (req.hours.getD 6) * 60 * 60 * 1000 }] := by
  obtain ⟨evId?, power?, hours?⟩ := req
  cases evId? with
  | none => left; rfl
  | some evId =>
    by_cases hev : evId = ""
    · left; simp [startHandler, hev]
    · cases power? with
      | none => left; simp [startHandler, hev]
      | some power =>
        by_cases hfi : env.faults.sessionInsert = true
        · left; simp [startHandler, hev, hfi]
        · right
          refine ⟨power, ?_⟩
          simp only [startHandler, hev, hfi]
          by_cases hti : env.faults.tokenInsert = true <;>
            by_cases hq : env.faults.queueInsert = true <;>
              simp [hti, hq, queueLedgerEvent]

theorem allSix_updateStatus {s : Store} (h : allSixStatuses s)
    (cond : ChargingSession → Bool) {st : String} (hst : st ∈ sixStatuses) :
    allSixStatuses (updateSessions s cond (fun x => { x with status := st })) := by
  intro r hr
  rcases List.mem_map.mp hr with ⟨x, hx, hfx⟩
  by_cases hc : cond x = true
  · simp only [hc, if_true] at hfx
    rw [← hfx]
    exact hst
  · rw [Bool.not_eq_true] at hc
    simp only [hc, Bool.false_eq_true, if_false] at hfx
    rw [← hfx]
    exact h x hx

theorem allSix_expire {s : Store} (h : allSixStatuses s) (b : Bool)
    (sid : String) : allSixStatuses (expireSessionUpdate b sid s) := by
  unfold expireSessionUpdate
  cases b with
  | true => simpa using h
  | false =>
    simp only [Bool.false_eq_true, if_false]
    exact allSix_updateStatus h _ (by decide)

theorem allSix_of_sessions_eq {s s' : Store}
    (heq : s'.charging_sessions = s.charging_sessions)
    (h : allSixStatuses s) : allSixStatuses s' := by
  intro r hr
  rw [heq] at hr
  exact h r hr

theorem pauseHandler_allSix (env : Env) (req : SessionRequest) (s : Store)
    (h : allSixStatuses s) : allSixStatuses (pauseHandler env req s).store := by
  rcases pauseHandler_store_cases env req s with hc | ⟨sid, ev, r, _, _, hc | hc⟩
  · exact allSix_of_sessions_eq hc h
  · exact allSix_of_sessions_eq hc (allSix_expire h _ _)
  · exact allSix_of_sessions_eq hc (allSix_updateStatus h _ (by decide))

theorem stopHandler_allSix (env : Env) (req : SessionRequest) (s : Store)
    (h : allSixStatuses s) : allSixStatuses (stopHandler env req s).store := by
  rcases stopHandler_store_cases env req s with hc | ⟨sid, ev, r, _, _, hc | hc⟩
  · exact allSix_of_sessions_eq hc h
  · exact allSix_of_sessions_eq hc (allSix_expire h _ _)
  · exact allSix_of_sessions_eq hc (allSix_updateStatus h _ (by decide))

theorem resumeHandler_allSix (env : Env) (req : ResumeRequest) (s : Store)
    (h : allSixStatuses s) : allSixStatuses (resumeHandler env req s).store := by
  rcases resumeHandler_store_cases env req s with hc | ⟨sid, ev, r, _, _, hc | hc⟩
  · exact allSix_of_sessions_eq hc h
  · exact allSix_of_sessions_eq hc (allSix_expire h _ _)
  · exact allSix_of_sessions_eq hc (allSix_updateStatus h _ (by decide))

theorem startHandler_allSix (env : Env) (req : StartRequest) (s : Store)
    (h : allSixStatuses s) : allSixStatuses (startHandler env req s).store := by
  rcases startHandler_store_cases env req s with hc | ⟨p, hc⟩
  · exact allSix_of_sessions_eq hc h
  · intro r hr
    rw [hc] at hr
    rcases List.mem_append.mp hr with h1 | h1
    · exact h r h1
    · have := List.mem_singleton.mp h1
      subst this
      show "active" ∈ sixStatuses
      decide

theorem pauseHandler_preserves_terminal (env : Env) (req : SessionRequest)
    (s : Store) (hu : sessionIdsUnique s) {t : ChargingSession}
    (ht : t ∈ s.charging_sessions) (hterm : isTerminal t.status = true) :
    t ∈ (pauseHandler env req s).store.charging_sessions := by
  rcases pauseHandler_store_cases env req s with hc |
      ⟨sid, ev, r, hsel, hr, hc | hc⟩
  · rw [hc]; exact ht
  · rw [hc]; exact mem_of_expireUpdate_nonterminal hu hsel hr ht hterm _
  · rw [hc]; exact mem_of_cmdUpdate_nonterminal hsel hr ht hterm

theorem stopHandler_preserves_terminal (env : Env) (req : SessionRequest)
    (s : Store) (hu : sessionIdsUnique s) {t : ChargingSession}
    (ht : t ∈ s.charging_sessions) (hterm : isTerminal t.status = true) :
    t ∈ (stopHandler env req s).store.charging_sessions := by
  rcases stopHandler_store_cases env req s with hc |
      ⟨sid, ev, r, hsel, hr, hc | hc⟩
  · rw [hc]; exact ht
  · rw [hc]; exact mem_of_expireUpdate_nonterminal hu hsel hr ht hterm _
  · rw [hc]; exact mem_of_cmdUpdate_nonterminal hsel hr ht hterm

theorem resumeHandler_preserves_terminal (env : Env) (req : ResumeRequest)
    (s : Store) (hu : sessionIdsUnique s) {t : ChargingSession}
    (ht : t ∈ s.charging_sessions) (hterm : isTerminal t.status = true) :
    t ∈ (resumeHandler env req s).store.charging_sessions := by
  rcases resumeHandler_store_cases env req s with hc |
      ⟨sid, ev, r, hsel, hr, hc | hc⟩
  · rw [hc]; exact ht
  · rw [hc]; exact mem_of_expireUpdate_nonterminal hu hsel hr ht hterm _
  · rw [hc]; exact mem_of_cmdUpdate_nonterminal hsel hr ht hterm

theorem startHandler_preserves_terminal (env : Env) (req : StartRequest)
    (s : Store) {t : ChargingSession} (ht : t ∈ s.charging_sessions) :
    t ∈ (startHandler env req s).store.charging_sessions := by
  rcases startHandler_store_cases env req s with hc | ⟨p, hc⟩
  · rw [hc]; exact ht
  · rw [hc]; exact List.mem_append.mpr (Or.inl ht)

theorem filter_map_pres {α : Type} {p : α → Bool} {f : α → α}
    (hf : ∀ r, p (f r) = p r) (l : List α) :
    (l.map f).filter p = (l.filter p).map f := by
  rw [List.filter_map]
  congr 1
  apply List.filter_congr
  intro x _
  simp [Function.comp, hf x]

theorem selectSingleSession_updateSessions {s : Store} {sid ev : String}
    {r : ChargingSession} (h : selectSingleSession s sid ev = some r)
    (cond : ChargingSession → Bool) (st : String) :
    selectSingleSession
        (updateSessions s cond (fun x => { x with status := st })) sid ev
      = some (if cond r then { r with status := st } else r) := by
  rw [selectSingleSession_eq_some] at h ⊢
  show ((s.charging_sessions.map
      (fun x => if cond x then { x with status := st } else x)).filter
      (fun x => x.session_id == sid && x.ev_id == ev)) = _
  rw [filter_map_pres (by intro x; by_cases hc : cond x <;> simp [hc]), h]
  rfl

theorem isActive_iff (st : String) :
    isActive st = true ↔ st = "active" ∨ st = "charging" := by
  simp [isActive, ACTIVE_STATES]

theorem active_not_resumable {st : String} (h : isActive st = true) :
    isResumable st = false := by
  rcases (isActive_iff st).mp h with h1 | h1 <;> subst h1 <;> decide

theorem isTerminal_iff (st : String) :
    isTerminal st = true ↔ st = "stopped" ∨ st = "expired" := by
  simp [isTerminal, TERMINAL_STATES]

theorem terminal_not_resumable {st : String} (h : isTerminal st = true) :
    isResumable st = false := by
  rcases (isTerminal_iff st).mp h with h1 | h1 <;> subst h1 <;> decide

theorem selectSingleSession_congr {s s' : Store}
    (h : s'.charging_sessions = s.charging_sessions) (sid ev : String) :
    selectSingleSession s' sid ev = selectSingleSession s sid ev := by
  unfold selectSingleSession
  rw [h]

theorem resumeHandler_ok_eq (env : Env) (s : Store)
    (hf : env.faults = noFaults) (e sid tok : String)
    (he : e ≠ "") (hs : sid ≠ "") (ht : tok ≠ "") :
    (resumeHandler env ⟨some e, some sid, some tok⟩ s).response.ok
      = resumeSucceedsCond env e sid tok s := by
  have hfr : env.faults.tokenRevoke = false := by rw [hf]; rfl
  have hfi : env.faults.tokenInsert = false := by rw [hf]; rfl
  have hfu : env.faults.sessionUpdate = false := by rw [hf]; rfl
  cases hsel : selectSingleSession s sid e with
  | none => simp [resumeHandler, he, hs, ht, hsel, resumeSucceedsCond]
  | some r =>
    by_cases hterm : isTerminal r.status = true
    · simp [resumeHandler, he, hs, ht, hsel, hterm, resumeSucceedsCond,
        terminal_not_resumable hterm]
    · rw [Bool.not_eq_true] at hterm
      by_cases hact : isActive r.status = true
      · simp [resumeHandler, he, hs, ht, hsel, hterm, hact,
          resumeSucceedsCond, active_not_resumable hact]
      · rw [Bool.not_eq_true] at hact
        by_cases hres : isResumable r.status = true
        · by_cases hexp : isExpired env.now r.expires_at = true
          · simp [resumeHandler, he, hs, ht, hsel, hterm, hact, hres, hexp,
              resumeSucceedsCond]
          · rw [Bool.not_eq_true] at hexp
            cases hseltok : selectSingleToken s sid (env.hashToken tok) with
            | none =>
              simp [resumeHandler, he, hs, ht, hsel, hterm, hact, hres, hexp,
                hseltok, resumeSucceedsCond]
            | some tokenRow =>
              by_cases htexp : isExpired env.now tokenRow.expires_at = true
              · simp [resumeHandler, he, hs, ht, hsel, hterm, hact, hres,
                  hexp, hseltok, htexp, resumeSucceedsCond]
              · rw [Bool.not_eq_true] at htexp
                obtain ⟨hrmem, hrsid, hrev⟩ := selectSingleSession_props hsel
                have hgen : ∀ s2 : Store,
                    s2.charging_sessions = s.charging_sessions →
                    selectSingleSession (resumeSessionUpdate sid e s2) sid e
                      = some { r with status := "active" } := by
                  intro s2 h2
                  have hsel2 : selectSingleSession s2 sid e = some r :=
                    (selectSingleSession_congr h2 sid e).trans hsel
                  have hcond : sessionUpdateMatches sid e r = true := by
                    simp [sessionUpdateMatches, hrsid, hrev]
                  have hup := selectSingleSession_updateSessions hsel2
                    (sessionUpdateMatches sid e) "active"
                  unfold resumeSessionUpdate
                  simpa [hcond] using hup
                simp only [resumeHandler, he, hs, ht, hsel, hterm, hact, hres,
                  hexp, hseltok, htexp, hfr, hfi, hfu, Bool.false_eq_true,
                  if_false, Bool.not_false, Bool.not_true, if_true, reduceIte]
                split
                · next heq =>
                  exfalso
                  have hswap : selectSingleSession
                      (resumeSessionUpdate sid e s) sid e = none :=
                    Eq.trans (selectSingleSession_congr rfl sid e).symm heq
                  have hsome := hgen s rfl
                  rw [hswap] at hsome
                  exact Option.noConfusion hsome
                · by_cases hq : env.faults.queueInsert = true <;>
                    simp [resumeSucceedsCond, hsel, hres, hexp, hseltok,
                      htexp, queueLedgerEvent, hq]
        · rw [Bool.not_eq_true] at hres
          simp [resumeHandler, he, hs, ht, hsel, hterm, hact, hres,
            resumeSucceedsCond]

theorem isResumable_iff (st : String) :
    isResumable st = true ↔ st = "paused" ∨ st = "disconnected" := by
  simp [isResumable, RESUMABLE_STATES]

theorem resumable_not_terminal {st : String} (h : isResumable st = true) :
    isTerminal st = false := by
  rcases (isResumable_iff st).mp h with h1 | h1 <;> subst h1 <;> decide

theorem resumable_not_active {st : String} (h : isResumable st = true) :
    isActive st = false := by
  rcases (isResumable_iff st).mp h with h1 | h1 <;> subst h1 <;> decide

theorem selectSingleToken_eq_some {s : Store} {sid hash : String}
    {t : TokenRow} :
    selectSingleToken s sid hash = some t ↔
      s.session_resume_tokens.filter
        (fun x => x.session_id == sid && x.token_hash == hash
          && x.revoked_at == none) = [t] := by
  unfold selectSingleToken
  cases h : s.session_resume_tokens.filter
      (fun x => x.session_id == sid && x.token_hash == hash
        && x.revoked_at == none) with
  | nil => simp
  | cons a t2 =>
    cases t2 with
    | nil => simp
    | cons b t3 => simp

/-- C1: For every session whose status is stopped or expired (TERMINAL),
every subsequent lifecycle command addressed to it (pause, resume, stop)
is rejected with a terminal-state error and leaves the store untouched;
no handler invocation (start, pause, resume, stop, under any request and
any fault pattern) ever changes a terminal session's row; and every
handler preserves the invariant that each session status is one of the
six defined values. -/
theorem C1_terminal_absorbing (env : Env) (s : Store)
    (hu : sessionIdsUnique s) (hsix : allSixStatuses s)
    (sid ev tok : String) (hev : ev ≠ "") (hsid : sid ≠ "") (htok : tok ≠ "")
    (r : ChargingSession) (hsel : selectSingleSession s sid ev = some r)
    (hterm : isTerminal r.status = true) :
    (pauseHandler env ⟨some ev, some sid⟩ s
       = ⟨errResponse 400 ("Session already " ++ r.status), s, []⟩) ∧
    (resumeHandler env ⟨some ev, some sid, some tok⟩ s
       = ⟨errResponse 400 ("Session is " ++ r.status
           ++ " - cannot resume a terminated session"), s, []⟩) ∧
    (stopHandler env ⟨some ev, some sid⟩ s
       = ⟨errResponse 400 ("Session already " ++ r.status), s, []⟩) ∧
    (∀ req : SessionRequest, ∀ t ∈ s.charging_sessions,
       isTerminal t.status = true →
       t ∈ (pauseHandler env req s).store.charging_sessions ∧
       t ∈ (stopHandler env req s).store.charging_sessions) ∧
    (∀ req : ResumeRequest, ∀ t ∈ s.charging_sessions,
       isTerminal t.status = true →
       t ∈ (resumeHandler env req s).store.charging_sessions) ∧
    (∀ req : StartRequest, ∀ t ∈ s.charging_sessions,
       t ∈ (startHandler env req s).store.charging_sessions) ∧
    (∀ req : SessionRequest,
       allSixStatuses (pauseHandler env req s).store ∧
       allSixStatuses (stopHandler env req s).store) ∧
    (∀ req : ResumeRequest, allSixStatuses (resumeHandler env req s).store) ∧
    (∀ req : StartRequest, allSixStatuses (startHandler env req s).store) := by
  refine ⟨?_, ?_, ?_, ?_, ?_, ?_, ?_, ?_, ?_⟩
  · simp [pauseHandler, hev, hsid, hsel, hterm]
  · simp [resumeHandler, hev, hsid, htok, hsel, hterm]
  · simp [stopHandler, hev, hsid, hsel, hterm]
  · intro req t ht hter
    exact ⟨pauseHandler_preserves_terminal env req s hu ht hter,
      stopHandler_preserves_terminal env req s hu ht hter⟩
  · intro req t ht hter
    exact resumeHandler_preserves_terminal env req s hu ht hter
  · intro req t ht
    exact startHandler_preserves_terminal env req s ht
  · intro req
    exact ⟨pauseHandler_allSix env req s hsix, stopHandler_allSix env req s hsix⟩
  · intro req
    exact resumeHandler_allSix env req s hsix
  · intro req
    exact startHandler_allSix env req s hsix

/-- Witness for C1 at a concrete stopped session: the pause command is
rejected with the terminal-state error and the store is untouched. -/
theorem C1_terminal_absorbing_witness :
    pauseHandler cFixedEnv ⟨some "EV1", some "S1"⟩ cStoreTerminal
      = ⟨errResponse 400 "Session already stopped", cStoreTerminal, []⟩ :=
  (C1_terminal_absorbing cFixedEnv cStoreTerminal
    (by unfold sessionIdsUnique cStoreTerminal; decide)
    (by unfold allSixStatuses cStoreTerminal; decide)
    "S1" "EV1" "tok" (by decide) (by decide) (by decide) cStopped
    (by decide) (by decide)).1

/-- C2: In a fault-free run, resume succeeds (HTTP 200, ok = true) if
and only if the session exists for the given (sessionId, evId), its
status is paused or disconnected, now is strictly before the session's
expires_at, and the supplied secret's hash matches the single unrevoked
token row for that session whose own expires_at has not passed; each
other case fails with its own distinct error (404 not found, 400
terminal, 400 already active, 410 expired, 401 invalid or revoked
token, 401 token expired). -/
theorem C2_resume_iff (env : Env) (s : Store) (hf : env.faults = noFaults)
    (e sid tok : String) (he : e ≠ "") (hs : sid ≠ "") (ht : tok ≠ "") :
    ((resumeHandler env ⟨some e, some sid, some tok⟩ s).response.ok = true ↔
       resumeSucceedsCond env e sid tok s = true) ∧
    (selectSingleSession s sid e = none →
       (resumeHandler env ⟨some e, some sid, some tok⟩ s).response
         = errResponse 404 "Session not found") ∧
    (∀ r, selectSingleSession s sid e = some r →
       isTerminal r.status = true →
       (resumeHandler env ⟨some e, some sid, some tok⟩ s).response
         = errResponse 400
             ("Session is " ++ r.status ++ " - cannot resume a terminated session")) ∧
    (∀ r, selectSingleSession s sid e = some r →
       isTerminal r.status = false → isActive r.status = true →
       (resumeHandler env ⟨some e, some sid, some tok⟩ s).response
         = errResponse 400
             ("Session is already " ++ r.status ++ " - no need to resume")) ∧
    (∀ r, selectSingleSession s sid e = some r →
       isResumable r.status = true →
       isExpired env.now r.expires_at = true →
       (resumeHandler env ⟨some e, some sid, some tok⟩ s).response
         = errResponse 410 "Session expired") ∧
    (∀ r, selectSingleSession s sid e = some r →
       isResumable r.status = true →
       isExpired env.now r.expires_at = false →
       selectSingleToken s sid (env.hashToken tok) = none →
       (resumeHandler env ⟨some e, some sid, some tok⟩ s).response
         = errResponse 401 "Invalid or revoked token") ∧
    (∀ r t, selectSingleSession s sid e = some r →
       isResumable r.status = true →
       isExpired env.now r.expires_at = false →
       selectSingleToken s sid (env.hashToken tok) = some t →
       isExpired env.now t.expires_at = true →
       (resumeHandler env ⟨some e, some sid, some tok⟩ s).response
         = errResponse 401 "Token expired") := by
  have hq : env.faults.queueInsert = false := by rw [hf]; rfl
  refine ⟨?_, ?_, ?_, ?_, ?_, ?_, ?_⟩
  · rw [resumeHandler_ok_eq env s hf e sid tok he hs ht]
  · intro hsel
    simp [resumeHandler, he, hs, ht, hsel]
  · intro r hsel hterm
    simp [resumeHandler, he, hs, ht, hsel, hterm]
  · intro r hsel hterm hact
    simp [resumeHandler, he, hs, ht, hsel, hterm, hact]
  · intro r hsel hres hexp
    simp [resumeHandler, he, hs, ht, hsel,
      resumable_not_terminal hres, resumable_not_active hres, hres, hexp,
      queueLedgerEvent, hq]
  · intro r hsel hres hexp hseltok
    simp [resumeHandler, he, hs, ht, hsel,
      resumable_not_terminal hres, resumable_not_active hres, hres, hexp,
      hseltok]
  · intro r t hsel hres hexp hseltok htexp
    simp [resumeHandler, he, hs, ht, hsel,
      resumable_not_terminal hres, resumable_not_active hres, hres, hexp,
      hseltok, htexp]

/-- C3 counterexample: the pause route's session-row update is NOT
conditioned on the session's status at write time.  Applied to a store
whose session a racer has meanwhile stopped, the update still matches
the row (even though `isActive "stopped"` is false, so pause's
precondition fails at write time) and overwrites it to "disconnected":
one row is affected, not zero. -/
theorem C3_counterexample :
    sessionUpdateMatches "S1" "EV1" cStopped = true ∧
    isActive cStopped.status = false ∧
    (pauseSessionUpdate "S1" "EV1" cStoreTerminal).charging_sessions
      = [{ cStopped with status := "disconnected" }] ∧
    (pauseSessionUpdate "S1" "EV1" cStoreTerminal).charging_sessions
      ≠ cStoreTerminal.charging_sessions := by
  refine ⟨by decide, by decide, by decide, by decide⟩

/-- C3 amended: the status precondition of pause / resume / stop is
enforced only by the checks on the row read before the write; the store
update itself is conditioned only on (sessionId, evId) and overwrites
any matching row regardless of the row's status at write time, so a
losing racer's update still affects the matched row rather than zero
rows. -/
theorem C3_amended (sid ev : String) (s : Store) (r : ChargingSession)
    (h : r ∈ s.charging_sessions) (hm : r.session_id = sid)
    (he2 : r.ev_id = ev) :
    { r with status := "disconnected" }
      ∈ (pauseSessionUpdate sid ev s).charging_sessions ∧
    { r with status := "active" }
      ∈ (resumeSessionUpdate sid ev s).charging_sessions ∧
    { r with status := "stopped" }
      ∈ (stopSessionUpdate sid ev s).charging_sessions := by
  have hc : sessionUpdateMatches sid ev r = true := by
    simp [sessionUpdateMatches, hm, he2]
  refine ⟨?_, ?_, ?_⟩
  · have h2 := List.mem_map_of_mem
      (fun x => if sessionUpdateMatches sid ev x then
        { x with status := "disconnected" } else x) h
    unfold pauseSessionUpdate updateSessions
    simpa [hc] using h2
  · have h2 := List.mem_map_of_mem
      (fun x => if sessionUpdateMatches sid ev x then
        { x with status := "active" } else x) h
    unfold resumeSessionUpdate updateSessions
    simpa [hc] using h2
  · have h2 := List.mem_map_of_mem
      (fun x => if sessionUpdateMatches sid ev x then
        { x with status := "stopped" } else x) h
    unfold stopSessionUpdate updateSessions
    simpa [hc] using h2

/-- Witness for the amended C3 at a concrete raced (already stopped)
session row. -/
theorem C3_amended_witness :
    { cStopped with status := "disconnected" }
      ∈ (pauseSessionUpdate "S1" "EV1" cStoreTerminal).charging_sessions :=
  (C3_amended "S1" "EV1" cStoreTerminal cStopped (by decide) rfl rfl).1

/-- Witness for C2: at a concrete paused, unexpired session with a live
matching token, resume succeeds. -/
theorem C2_resume_iff_witness :
    (resumeHandler cFixedEnv ⟨some "EV1", some "S1", some "tok1"⟩
        cStoreResumable).response.ok = true :=
  ((C2_resume_iff cFixedEnv cStoreResumable rfl "EV1" "S1" "tok1"
      (by decide) (by decide) (by decide)).1).mpr (by decide)

/-- C4 counterexample: when the insert of the rotated token fails on
resume's critical path, the command returns a transient 500 error but a
partial mutation remains: the old token row is already revoked and no
new token was inserted, so the session is left with zero unrevoked
tokens and the store differs from the pre-command store. -/
theorem C4_counterexample :
    (resumeHandler cFaultInsertEnv ⟨some "EV1", some "S1", some "tok1"⟩
        cStoreResumable).response.status_code = 500 ∧
    (resumeHandler cFaultInsertEnv ⟨some "EV1", some "S1", some "tok1"⟩
        cStoreResumable).response.ok = false ∧
    (resumeHandler cFaultInsertEnv ⟨some "EV1", some "S1", some "tok1"⟩
        cStoreResumable).store.session_resume_tokens
      = [{ cLiveToken with revoked_at := some 1000 }] ∧
    (resumeHandler cFaultInsertEnv ⟨some "EV1", some "S1", some "tok1"⟩
        cStoreResumable).store ≠ cStoreResumable := by
  refine ⟨by decide, by decide, by decide, by decide⟩

/-- C4 amended: a store-write failure on resume's critical path does
surface as a transient error without applying the status transition,
but the command is not atomic: when the new-token insert fails, the old
token's revocation (performed just before, its own error unchecked)
persists, leaving a half-completed rotation — the session row is
unchanged while the token table holds the revocation and no new
token. -/
theorem C4_amended (env : Env) (s : Store)
    (hfaults : env.faults = { tokenInsert := true })
    (e sid tok : String) (he : e ≠ "") (hs : sid ≠ "") (ht : tok ≠ "")
    (r : ChargingSession) (hsel : selectSingleSession s sid e = some r)
    (hres : isResumable r.status = true)
    (hexp : isExpired env.now r.expires_at = false)
    (t : TokenRow)
    (hseltok : selectSingleToken s sid (env.hashToken tok) = some t)
    (htexp : isExpired env.now t.expires_at = false) :
    (resumeHandler env ⟨some e, some sid, some tok⟩ s).response
      = errResponse 500 "token insert failed" ∧
    (resumeHandler env ⟨some e, some sid, some tok⟩ s).store.charging_sessions
      = s.charging_sessions ∧
    (resumeHandler env ⟨some e, some sid, some tok⟩ s).store.session_resume_tokens
      = s.session_resume_tokens.map
          (fun x => if x.id == t.id then { x with revoked_at := some env.now }
            else x) := by
  have hfr : env.faults.tokenRevoke = false := by rw [hfaults]
  have hfi : env.faults.tokenInsert = true := by rw [hfaults]
  simp [resumeHandler, he, hs, ht, hsel, resumable_not_terminal hres,
    resumable_not_active hres, hres, hexp, hseltok, htexp, hfr, hfi,
    updateTokens]

/-- Witness for the amended C4 at the concrete resumable fixture. -/
theorem C4_amended_witness :
    (resumeHandler cFaultInsertEnv ⟨some "EV1", some "S1", some "tok1"⟩
        cStoreResumable).response
      = errResponse 500 "token insert failed" :=
  (C4_amended cFaultInsertEnv cStoreResumable rfl "EV1" "S1" "tok1"
    (by decide) (by decide) (by decide) cPaused (by decide) (by decide)
    (by decide) cLiveToken (by decide) (by decide)).1

theorem status_of_mem_cmdUpdate {l : List ChargingSession}
    {sid ev st : String} {x : ChargingSession}
    (hx : x ∈ l.map (fun y => if sessionUpdateMatches sid ev y then
      { y with status := st } else y))
    (hid : x.session_id = sid) (hev : x.ev_id = ev) : x.status = st := by
  rcases List.mem_map.mp hx with ⟨y, hy, hfy⟩
  by_cases hc : sessionUpdateMatches sid ev y = true
  · simp only [hc, if_true] at hfy
    rw [← hfy]
  · rw [Bool.not_eq_true] at hc
    simp only [hc, Bool.false_eq_true, if_false] at hfy
    subst hfy
    exfalso
    simp [sessionUpdateMatches, hid, hev] at hc

theorem revoked_of_mem_revokeAll {l : List TokenRow} {sid : String}
    {now : Int} {t : TokenRow}
    (ht : t ∈ l.map (fun x =>
      if x.session_id == sid && x.revoked_at == none then
        { x with revoked_at := some now } else x))
    (hid : t.session_id = sid) : t.revoked_at ≠ none := by
  rcases List.mem_map.mp ht with ⟨y, hy, hfy⟩
  by_cases hc : (y.session_id == sid && y.revoked_at == none) = true
  · simp only [hc, if_true] at hfy
    rw [← hfy]
    simp
  · rw [Bool.not_eq_true] at hc
    simp only [hc, Bool.false_eq_true, if_false] at hfy
    subst hfy
    simp only [Bool.and_eq_false_iff] at hc
    rcases hc with hc | hc
    · exfalso
      rw [hid] at hc
      simp at hc
    · intro hnone
      rw [hnone] at hc
      simp at hc

/-- C5: In a fault-free run, a successful stop on an existing
non-terminal, non-expired session returns HTTP 200, reports the session
as stopped, sets the matching session row's status to "stopped", and
revokes every live token of the session, so zero unrevoked token rows
remain for it. -/
theorem C5_stop_revokes_all (env : Env) (s : Store)
    (hf : env.faults = noFaults) (e sid : String) (he : e ≠ "") (hs : sid ≠ "")
    (r : ChargingSession) (hsel : selectSingleSession s sid e = some r)
    (hterm : isTerminal r.status = false)
    (hexp : isExpired env.now r.expires_at = false) :
    (stopHandler env ⟨some e, some sid⟩ s).response.ok = true ∧
    (stopHandler env ⟨some e, some sid⟩ s).response.status_code = 200 ∧
    (stopHandler env ⟨some e, some sid⟩ s).response.session
      = some { r with status := "stopped" } ∧
    (∀ x ∈ (stopHandler env ⟨some e, some sid⟩ s).store.charging_sessions,
       x.session_id = sid → x.ev_id = e → x.status = "stopped") ∧
    (∀ t ∈ (stopHandler env ⟨some e, some sid⟩ s).store.session_resume_tokens,
       t.session_id = sid → t.revoked_at ≠ none) := by
  have hfu : env.faults.sessionUpdate = false := by rw [hf]; rfl
  have hfra : env.faults.tokenRevokeAll = false := by rw [hf]; rfl
  have hq : env.faults.queueInsert = false := by rw [hf]; rfl
  obtain ⟨hrmem, hrsid, hrev⟩ := selectSingleSession_props hsel
  have hcond : sessionUpdateMatches sid e r = true := by
    simp [sessionUpdateMatches, hrsid, hrev]
  have hsel1 : selectSingleSession (stopSessionUpdate sid e s) sid e
      = some { r with status := "stopped" } := by
    have hup := selectSingleSession_updateSessions hsel
      (sessionUpdateMatches sid e) "stopped"
    unfold stopSessionUpdate
    simpa [hcond] using hup
  refine ⟨?_, ?_, ?_, ?_, ?_⟩
  · simp [stopHandler, he, hs, hsel, hterm, hexp, hfu, hfra, hq, hsel1,
      queueLedgerEvent]
  · simp [stopHandler, he, hs, hsel, hterm, hexp, hfu, hfra, hq, hsel1,
      queueLedgerEvent]
  · simp [stopHandler, he, hs, hsel, hterm, hexp, hfu, hfra, hq, hsel1,
      queueLedgerEvent]
  · intro x hx hid hev
    simp only [stopHandler, he, hs, hsel, hterm, hexp, hfu, hfra, hq, hsel1,
      Bool.false_eq_true, if_false, Bool.not_false, Bool.not_true, if_true,
      reduceIte] at hx
    simp only [queueLedgerEvent, stopSessionUpdate, updateSessions,
      updateTokens, Bool.false_eq_true, if_false, reduceIte] at hx
    exact status_of_mem_cmdUpdate hx hid hev
  · intro t ht hid
    simp only [stopHandler, he, hs, hsel, hterm, hexp, hfu, hfra, hq, hsel1,
      Bool.false_eq_true, if_false, Bool.not_false, Bool.not_true, if_true,
      reduceIte] at ht
    simp only [queueLedgerEvent, stopSessionUpdate, updateSessions,
      updateTokens, Bool.false_eq_true, if_false, reduceIte] at ht
    exact revoked_of_mem_revokeAll ht hid

/-- Witness for C5 at a concrete active session with one live token. -/
theorem C5_stop_revokes_all_witness :
    (stopHandler cFixedEnv ⟨some "EV1", some "S1"⟩
        { charging_sessions := [{ cPaused with status := "active" }]
          session_resume_tokens := [cLiveToken]
          ledger_queue := [] }).response.ok = true :=
  (C5_stop_revokes_all cFixedEnv
    { charging_sessions := [{ cPaused with status := "active" }]
      session_resume_tokens := [cLiveToken]
      ledger_queue := [] }
    rfl "EV1" "S1" (by decide) (by decide) { cPaused with status := "active" }
    (by decide) (by decide) (by decide)).1

theorem active_not_terminal {st : String} (h : isActive st = true) :
    isTerminal st = false := by
  rcases (isActive_iff st).mp h with h1 | h1 <;> subst h1 <;> decide

/-- C6 counterexample: pause on a non-terminal (active) session whose
expiry has passed does transition it to expired and returns the 410
error, but queues NO SessionExpired ledger event: the ledger_queue is
left unchanged (empty), contradicting the claim that every command
emits a SessionExpired ledger event on lazy expiry. -/
theorem C6_counterexample :
    (pauseHandler cFixedEnv ⟨some "EV1", some "S1"⟩
        cStoreActiveExpired).response = errResponse 410 "Session expired" ∧
    (pauseHandler cFixedEnv ⟨some "EV1", some "S1"⟩
        cStoreActiveExpired).store.ledger_queue = [] ∧
    (pauseHandler cFixedEnv ⟨some "EV1", some "S1"⟩
        cStoreActiveExpired).store.charging_sessions
      = [{ cActiveExpired with status := "expired" }] := by
  refine ⟨by decide, by decide, by decide⟩

/-- C6 amended: expiry is detected lazily only after each command's
status-class checks pass.  In a fault-free run, on an expired session:
stop expires any non-terminal session, resume expires only resumable
(paused / disconnected) sessions, pause expires only active sessions;
on detection the status is set to "expired" and a 410 "Session expired"
error is returned; resume and stop queue a SessionExpired ledger event
and broadcast it, while pause queues and broadcasts nothing.  An
expired session that fails the command's status-class check is left
untouched and gets that check's ordinary 400 error instead. -/
theorem C6_amended (env : Env) (s : Store) (hf : env.faults = noFaults)
    (e sid tok : String) (he : e ≠ "") (hs : sid ≠ "") (ht : tok ≠ "")
    (r : ChargingSession) (hsel : selectSingleSession s sid e = some r)
    (hexp : isExpired env.now r.expires_at = true) :
    (isActive r.status = true →
       pauseHandler env ⟨some e, some sid⟩ s
         = ⟨errResponse 410 "Session expired",
            expireSessionUpdate false sid s, []⟩) ∧
    (isResumable r.status = true →
       pauseHandler env ⟨some e, some sid⟩ s
         = ⟨errResponse 400
             ("Session is " ++ r.status ++ " - already paused/disconnected"),
            s, []⟩) ∧
    (isResumable r.status = true →
       resumeHandler env ⟨some e, some sid, some tok⟩ s
         = ⟨errResponse 410 "Session expired",
            (queueLedgerEvent (expireSessionUpdate false sid s) env.now
              env.newQueueId false sid e "SessionExpired"
              "expired payload").1,
            ["SessionExpired"]⟩) ∧
    (isActive r.status = true →
       resumeHandler env ⟨some e, some sid, some tok⟩ s
         = ⟨errResponse 400
             ("Session is already " ++ r.status ++ " - no need to resume"),
            s, []⟩) ∧
    (isTerminal r.status = false →
       stopHandler env ⟨some e, some sid⟩ s
         = ⟨errResponse 410 "Session expired",
            (queueLedgerEvent (expireSessionUpdate false sid s) env.now
              env.newQueueId false sid e "SessionExpired"
              "expired payload").1,
            ["SessionExpired"]⟩) := by
  have hfe : env.faults.expireUpdate = false := by rw [hf]; rfl
  have hq : env.faults.queueInsert = false := by rw [hf]; rfl
  refine ⟨?_, ?_, ?_, ?_, ?_⟩
  · intro hact
    simp [pauseHandler, he, hs, hsel, active_not_terminal hact, hact, hexp,
      hfe]
  · intro hres
    simp [pauseHandler, he, hs, hsel, resumable_not_terminal hres,
      resumable_not_active hres]
  · intro hres
    simp [resumeHandler, he, hs, ht, hsel, resumable_not_terminal hres,
      resumable_not_active hres, hres, hexp, hfe, hq, queueLedgerEvent]
  · intro hact
    simp [resumeHandler, he, hs, ht, hsel, active_not_terminal hact, hact]
  · intro hterm
    simp [stopHandler, he, hs, hsel, hterm, hexp, hfe, hq, queueLedgerEvent]

/-- Witness for the amended C6: stop on the concrete expired active
session expires it, queues the SessionExpired event and returns 410. -/
theorem C6_amended_witness :
    stopHandler cFixedEnv ⟨some "EV1", some "S1"⟩ cStoreActiveExpired
      = ⟨errResponse 410 "Session expired",
         (queueLedgerEvent
           (expireSessionUpdate false "S1" cStoreActiveExpired) 1000 9 false
           "S1" "EV1" "SessionExpired" "expired payload").1,
         ["SessionExpired"]⟩ :=
  (C6_amended cFixedEnv cStoreActiveExpired rfl "EV1" "S1" "tok"
    (by decide) (by decide) (by decide) cActiveExpired (by decide)
    (by decide)).2.2.2.2 (by decide)

/-- C7: the ledger key is NOT deterministic per queue row.
`AppendSessionEvent` derives the key from the per-attempt fabric
transaction id (`sess~sessionId~eventType~txId`), and `processEvent`
creates a fresh transaction per attempt, so two retries of the same
queued event write under different keys.  Evaluated at a concrete queue
row and two attempt transaction ids. -/
theorem C7_key_depends_on_txid :
    attemptKey cQueueRow "tx-attempt-1"
      = "sess~S1~SessionStarted~tx-attempt-1" ∧
    attemptKey cQueueRow "tx-attempt-2"
      = "sess~S1~SessionStarted~tx-attempt-2" ∧
    attemptKey cQueueRow "tx-attempt-1" ≠ attemptKey cQueueRow "tx-attempt-2" := by
  refine ⟨by decide, by decide, by decide⟩

/-- C8 counterexample: for a row whose stored attempts count is 1,
a failing attempt at now = 0 sets attempts to 2 (the incremented count)
but next_retry_at to 0 + 5000 * 2 ^ 1 = 10000, not the claimed
0 + 5000 * 2 ^ 2 = 20000: the backoff exponent is the pre-increment
count, not the incremented one. -/
theorem C8_counterexample :
    (processEvent 0 none (Except.error "boom") cQueueRowA1).1.attempts = 2 ∧
    (processEvent 0 none (Except.error "boom") cQueueRowA1).1.next_retry_at
      = 10000 ∧
    (processEvent 0 none (Except.error "boom") cQueueRowA1).1.next_retry_at
      ≠ 0 + RETRY_DELAY_MS *
          2 ^ (processEvent 0 none (Except.error "boom") cQueueRowA1).1.attempts := by
  refine ⟨by decide, by decide, by decide⟩

/-- C8 amended: on a failed attempt the processor, having marked the
row processing with attempts incremented to `attempts + 1`, sets
`next_retry_at = now + baseDelay * 2 ^ attempts` with `attempts` the
PRE-increment count (equivalently `2 ^ (incremented - 1)`), records the
error, and marks the row "failed", or "dead" exactly when the
incremented count has reached MAX_ATTEMPTS (5), broadcasting a failure
notification exactly on reaching "dead". -/
theorem C8_amended (now : Int) (txId : Option String) (msg : String)
    (row : QueueRow) :
    (processEvent now txId (Except.error msg) row).1.attempts
      = row.attempts + 1 ∧
    (processEvent now txId (Except.error msg) row).1.next_retry_at
      = now + RETRY_DELAY_MS * 2 ^ row.attempts ∧
    (processEvent now txId (Except.error msg) row).1.last_error = some msg ∧
    (processEvent now txId (Except.error msg) row).1.status
      = (if row.attempts + 1 ≥ MAX_ATTEMPTS then "dead" else "failed") ∧
    (processEvent now txId (Except.error msg) row).2
      = (if row.attempts + 1 ≥ MAX_ATTEMPTS then [row.event_type ++ "Failed"]
         else []) := by
  unfold processEvent
  by_cases h : row.attempts + 1 ≥ MAX_ATTEMPTS <;> simp [h]

/-- C9: enqueue is best-effort with respect to the lifecycle command:
when the queue insert fails, queueLedgerEvent reports queued = false
and leaves the store unchanged (no exception), and the start command
that triggered it still returns success with the new session state and
a null queueId; the ledger failure never fails the command. -/
theorem C9_enqueue_best_effort (env : Env) (s : Store)
    (hfaults : env.faults = { queueInsert := true })
    (sid e : String) (he : e ≠ "") (p : Int) (hours : Option Int) :
    (queueLedgerEvent s env.now env.newQueueId true sid e "SessionStarted"
        "start payload").2.queued = false ∧
    (queueLedgerEvent s env.now env.newQueueId true sid e "SessionStarted"
        "start payload").1 = s ∧
    (startHandler env ⟨some e, some p, hours⟩ s).response.ok = true ∧
    (startHandler env ⟨some e, some p, hours⟩ s).response.status_code = 200 ∧
    (startHandler env ⟨some e, some p, hours⟩ s).response.queueId = none ∧
    (startHandler env ⟨some e, some p, hours⟩ s).store.ledger_queue
      = s.ledger_queue ∧
    (startHandler env ⟨some e, some p, hours⟩ s).response.session
      = some { session_id := env.newSessionId
               ev_id := e
               power_required := p
               power_consumed := 0
               cost := 0
               status := "active"
               expires_at := env.now + (hours.getD 6) * 60 * 60 * 1000 } := by
  have hsi : env.faults.sessionInsert = false := by rw [hfaults]
  have hti : env.faults.tokenInsert = false := by rw [hfaults]
  have hqi : env.faults.queueInsert = true := by rw [hfaults]
  refine ⟨by simp [queueLedgerEvent], by simp [queueLedgerEvent], ?_, ?_, ?_,
    ?_, ?_⟩ <;>
    simp [startHandler, he, hsi, hti, hqi, queueLedgerEvent]

/-- Witness for C9 at a concrete start request against an empty store. -/
theorem C9_enqueue_best_effort_witness :
    (startHandler cFaultQueueEnv ⟨some "EV1", some 10, none⟩
        cStoreEmpty).response.ok = true :=
  (C9_enqueue_best_effort cFaultQueueEnv cStoreEmpty rfl "S1" "EV1"
    (by decide) 10 none).2.2.1

/-- C10: a queue row left in "processing" has no recovery path inside
the queue component: the drain loop's fetch filter rejects it (it only
selects pending / failed rows), so it is never in a drain's batch, and
retryDeadEvents does not match it (it only resets dead rows), leaving
the row unchanged in the table. -/
theorem C10_processing_stuck (now now2 : Int) (rows : List QueueRow)
    (sid : Option String) (r : QueueRow) (hr : r.status = "processing") :
    fetchFilter now r = false ∧
    r ∉ processQueueSelect now rows ∧
    retryDeadMatches sid r = false ∧
    (r ∈ rows → r ∈ (retryDeadEvents now2 sid rows).1) := by
  have hfetch : fetchFilter now r = false := by
    simp [fetchFilter, hr]
  have hdead : retryDeadMatches sid r = false := by
    cases sid <;> simp [retryDeadMatches, hr]
  refine ⟨hfetch, ?_, hdead, ?_⟩
  · intro hmem
    have h1 : r ∈ (rows.filter (fetchFilter now)).mergeSort
        (fun a b => a.created_at ≤ b.created_at) :=
      List.mem_of_mem_take hmem
    have h2 : r ∈ rows.filter (fetchFilter now) :=
      List.mem_mergeSort.mp h1
    have h3 := (List.mem_filter.mp h2).2
    rw [hfetch] at h3
    exact Bool.false_ne_true h3
  · intro hmem
    exact mem_update_of_cond_false hmem hdead

/-- Witness for the amended C8 at the concrete attempts = 1 row. -/
theorem C8_amended_witness :
    (processEvent 0 none (Except.error "boom") cQueueRowA1).1.next_retry_at
      = 0 + RETRY_DELAY_MS * 2 ^ cQueueRowA1.attempts :=
  (C8_amended 0 none "boom" cQueueRowA1).2.1

/-- Witness for C10 at a concrete processing row. -/
theorem C10_processing_stuck_witness :
    fetchFilter 99999 cQueueRowProcessing = false ∧
    cQueueRowProcessing ∉ processQueueSelect 99999 [cQueueRowProcessing] ∧
    retryDeadMatches none cQueueRowProcessing = false ∧
    (cQueueRowProcessing ∈ [cQueueRowProcessing] →
      cQueueRowProcessing ∈ (retryDeadEvents 0 none [cQueueRowProcessing]).1) :=
  C10_processing_stuck 99999 0 [cQueueRowProcessing] none cQueueRowProcessing
    rfl
